import Mathlib

/-
Verification of the Emergency Reparent orchestration core (package `reparentutil`).

The Go source is shallowly embedded: pure decision logic (candidate selection,
constraint checks, compensation, error propagation) is translated into
executable Lean definitions, while external effects (topology reads, tablet
manager RPCs) are represented by explicit result values supplied through an
environment record.  Concurrency in `reparentReplicas` is resolved into a
deterministic function of the per-replica outcomes plus an explicit scheduling
flag for the context race in its final `select`.
-/

namespace ERS

/-- Error categories used by the source's `vterrors` codes. -/
inductive ErrCode where
  | failedPrecondition
  | aborted
  | internal
  | unknown
deriving DecidableEq, Repr

/-- Structured error values.  Each constructor corresponds to one
`vterrors.Errorf` site in the source (or to an error supplied by the
environment); `wrapped` models `vterrors.Wrapf`, which keeps the wrapped
error's code. -/
inductive Err where
  /-- FAILED_PRECONDITION: "split brain detected between servers - a and b". -/
  | splitBrain (a b : String)
  /-- FAILED_PRECONDITION: "no valid candidates for emergency reparent". -/
  | noValidCandidates
  /-- FAILED_PRECONDITION: "requested primary elect a has errant GTIDs". -/
  | errantGTIDs (a : String)
  /-- INTERNAL: "candidate a not found in the tablet map; this an impossible situation". -/
  | notInTabletMap (a : String)
  /-- ABORTED: "requested candidate a is not in valid candidates list". -/
  | notInValidList (a : String)
  /-- ABORTED: "elected primary does not satisfy geographic constraint - a". -/
  | geoConstraint (a : String)
  /-- ABORTED: "elected primary does not satisfy promotion rule constraint - a". -/
  | promotionRuleConstraint (a : String)
  /-- ABORTED: "could not undo promotion, since shard record has no primary information". -/
  | noPrevPrimary
  /-- ABORTED: "error in undoing promotion - u, constraint failure - c"
  (the deferred merge in `reparentShardLocked`). -/
  | undoJoin (u c : Err)
  /-- An aggregate built by `concurrency.AllErrorRecorder.Error` over the given
  number of recorded per-replica errors. -/
  | aggregated (count : Nat)
  /-- `vterrors.Wrapf` with a step-identifying message; the code of the wrapped
  error is preserved. -/
  | wrapped (step : String) (e : Err)
  /-- An error produced by an external collaborator (topology store or tablet
  manager RPC); its code is opaque to the orchestrator. -/
  | external (s : String)
deriving DecidableEq, Repr

/-- The vtrpc code of an error (`wrapped` preserves the inner code, as
`vterrors.Wrapf` does). -/
def Err.code : Err → ErrCode
  | .splitBrain _ _ => .failedPrecondition
  | .noValidCandidates => .failedPrecondition
  | .errantGTIDs _ => .failedPrecondition
  | .notInTabletMap _ => .internal
  | .notInValidList _ => .aborted
  | .geoConstraint _ => .aborted
  | .promotionRuleConstraint _ => .aborted
  | .noPrevPrimary => .aborted
  | .undoJoin _ _ => .aborted
  | .aggregated _ => .unknown
  | .wrapped _ e => e.code
  | .external _ => .unknown

/-- Recognizer for the split-brain error of `findMostAdvanced`. -/
def Err.isSplitBrain : Err → Bool
  | .splitBrain _ _ => true
  | _ => false

/-- Whether an `Except` carries a success. -/
def exceptOk {ε α : Type} : Except ε α → Bool
  | .ok _ => true
  | .error _ => false

/-- `topodatapb.TabletAlias`: a globally unique `{cell, uid}` pair. -/
structure TabletAlias where
  cell : String
  uid : Nat
deriving DecidableEq, Repr

/-- `topoproto.TabletAliasString`: the string form of an alias, used as the
key of every tablet map in the source. -/
def tabletAliasString (a : TabletAlias) : String :=
  a.cell ++ "-" ++ toString a.uid

/-- Tablet types (`topodatapb.TabletType`) relevant to candidate filtering. -/
inductive TabletType where
  | primary
  | replica
  | rdonly
  | drained
  | backup
  | restore
deriving DecidableEq, Repr

/-- Per-tablet promotion rule (`promotionrule.CandidatePromotionRule`). -/
inductive CandidatePromotionRule where
  | must
  | prefer
  | neutral
  | preferNot
  | mustNot
deriving DecidableEq, Repr

/-- `topodatapb.Tablet`, restricted to the attributes the reparent core reads:
the alias (whose cell is the failure domain tag), the type, and the promotion
rule. -/
structure Tablet where
  Alias : TabletAlias
  typ : TabletType
  promotionRule : CandidatePromotionRule
deriving DecidableEq, Repr

/-- Modelled from the spec: the durability-policy function `PromotionRule`
mapping a tablet to its promotion rule is not part of this excerpt; the spec
makes `promotion_rule` a per-tablet attribute, so we read it off the tablet. -/
def PromotionRule (t : Tablet) : CandidatePromotionRule :=
  t.promotionRule

/-- A replication position (`mysql.Position`), modelled as the set of change
records (GTIDs) it contains, each record identified by a natural number. -/
abbrev Position := List Nat

/-- `mysql.Position.AtLeast`: `a.AtLeast b` holds when every change record in
`b` is also in `a` (GTID-set containment). -/
def Position.AtLeast (a b : Position) : Bool :=
  b.all (fun g => a.contains g)

/-- `topo.ShardInfo`, restricted to the primary alias (which may be absent or
stale). -/
structure ShardInfo where
  primaryAlias : Option TabletAlias
deriving DecidableEq, Repr

/-- `EmergencyReparentOptions` (caller-supplied, immutable per operation). -/
structure EmergencyReparentOptions where
  newPrimaryAlias : Option TabletAlias
  ignoreReplicas : List String
  preventCrossCellPromotion : Bool
deriving Repr

/-- Go-map lookup over an association list keyed by alias strings. -/
def lookup {α : Type} : List (String × α) → String → Option α
  | [], _ => none
  | (k, v) :: rest, key => if k = key then some v else lookup rest key

/-- Modelled from the spec: `getValidCandidatesAndPositionsAsList` is not part
of this excerpt.  It converts the valid-candidates map into parallel
tablet/position lists (paired here), failing with an internal error when a
candidate is absent from the tablet map (the spec's "consistency violation"
internal error). -/
def getValidCandidatesAndPositionsAsList :
    List (String × Position) → List (String × Tablet) → Except Err (List (Tablet × Position))
  | [], _ => .ok []
  | (a, pos) :: rest, tabletMap =>
    match lookup tabletMap a with
    | none => .error (.notInTabletMap a)
    | some t =>
      match getValidCandidatesAndPositionsAsList rest tabletMap with
      | .error e => .error e
      | .ok restList => .ok ((t, pos) :: restList)

/-- Numeric order of promotion rules, best first (MUST < PREFER < NEUTRAL <
PREFER_NOT < MUST_NOT). -/
def promotionRuleOrder : CandidatePromotionRule → Nat
  | .must => 0
  | .prefer => 1
  | .neutral => 2
  | .preferNot => 3
  | .mustNot => 4

/-- Modelled from the spec: the comparator behind `sortTabletsForERS` (not part
of this excerpt).  The spec sorts by position descending (a strictly more
advanced position first), then cell equality with the previous primary's cell,
then promotion rule ascending. -/
def ersSortBefore (idealCell : String) (a b : Tablet × Position) : Bool :=
  if a.2.AtLeast b.2 && !(b.2.AtLeast a.2) then true
  else if b.2.AtLeast a.2 && !(a.2.AtLeast b.2) then false
  else if decide (a.1.Alias.cell = idealCell) && !(decide (b.1.Alias.cell = idealCell)) then true
  else if decide (b.1.Alias.cell = idealCell) && !(decide (a.1.Alias.cell = idealCell)) then false
  else Nat.ble (promotionRuleOrder a.1.promotionRule) (promotionRuleOrder b.1.promotionRule)

/-- Ordered insertion used by the sort. -/
def insertSorted (le : Tablet × Position → Tablet × Position → Bool) (x : Tablet × Position) :
    List (Tablet × Position) → List (Tablet × Position)
  | [] => [x]
  | y :: ys => if le x y then x :: y :: ys else y :: insertSorted le x ys

/-- Insertion sort with a boolean comparator. -/
def sortPairs (le : Tablet × Position → Tablet × Position → Bool) :
    List (Tablet × Position) → List (Tablet × Position)
  | [] => []
  | x :: xs => insertSorted le x (sortPairs le xs)

/-- Modelled from the spec: `sortTabletsForERS` (not part of this excerpt)
sorts the candidate tablets with their positions in lockstep; the two Go
slices are paired here. -/
def sortTabletsForERS (pairs : List (Tablet × Position)) (idealCell : String) :
    List (Tablet × Position) :=
  sortPairs (ersSortBefore idealCell) pairs

/-- The previous primary's cell, or "" when it is unknown (`findMostAdvanced`
lines computing `idealCell`). -/
def idealCellOf : Option Tablet → String
  | some p => p.Alias.cell
  | none => ""

/-- `findMostAdvanced`: selects the intermediate source.  Converts the valid
candidates into a sorted list, takes the head as the winner, performs the
split-brain check (the winner's position must be AtLeast every candidate's
position, the winner's own included), and then handles an explicitly requested
primary: absent from the valid candidates is a FAILED_PRECONDITION ("errant
GTIDs"); present and AtLeast the winner's position replaces the winner;
present but behind leaves the winner unchanged.  An empty candidate list would
make the Go code panic indexing `validTablets[0]`; it is represented by an
external error and is unreachable from the orchestrator, which has already
rejected empty candidate sets. -/
def findMostAdvanced (prevPrimary : Option Tablet) (validCandidates : List (String × Position))
    (tabletMap : List (String × Tablet)) (opts : EmergencyReparentOptions) :
    Except Err (Tablet × List Tablet) :=
  match getValidCandidatesAndPositionsAsList validCandidates tabletMap with
  | .error e => .error e
  | .ok pairs =>
    match sortTabletsForERS pairs (idealCellOf prevPrimary) with
    | [] => .error (.external "runtime panic: index out of range")
    | winning :: rest =>
      match (winning :: rest).find? (fun tp => !(winning.2.AtLeast tp.2)) with
      | some tp =>
        .error (.splitBrain (tabletAliasString winning.1.Alias) (tabletAliasString tp.1.Alias))
      | none =>
        match opts.newPrimaryAlias with
        | none => .ok (winning.1, (winning :: rest).map Prod.fst)
        | some requested =>
          match lookup validCandidates (tabletAliasString requested) with
          | none => .error (.errantGTIDs (tabletAliasString requested))
          | some pos =>
            if pos.AtLeast winning.2 then
              match lookup tabletMap (tabletAliasString requested) with
              | none => .error (.notInTabletMap (tabletAliasString requested))
              | some t => .ok (t, (winning :: rest).map Prod.fst)
            else
              .ok (winning.1, (winning :: rest).map Prod.fst)

/-- Outcomes of the primary-side calls made by `reparentReplicas`'s
`handlePrimary` closure: `MasterPosition` on the new primary, and (when
requested) `PopulateReparentJournal`. -/
structure ReparentEnv where
  masterPositionResult : Except Err Position
  populateJournalResult : Option Err

/-- `handlePrimary`: get the new primary's position; when
`populateReparentJournal` is set, also write the reparent journal row. -/
def handlePrimary (renv : ReparentEnv) (populateReparentJournal : Bool) : Option Err :=
  match renv.masterPositionResult with
  | .error e => some e
  | .ok _ => if populateReparentJournal then renv.populateJournalResult else none

/-- The replicas `reparentReplicas` fans out to: every tablet-map entry other
than the new primary and not in the ignore set (the `switch` in the fan-out
loop). -/
def fannedOutReplicas (newPrimaryTablet : Tablet) (tabletMap : List (String × Tablet))
    (opts : EmergencyReparentOptions) : List (String × Tablet) :=
  tabletMap.filter (fun p =>
    !(decide (p.1 = tabletAliasString newPrimaryTablet.Alias)) && !(opts.ignoreReplicas.contains p.1))

/-- `reparentReplicas`: reparents all replicas to `newPrimaryTablet` and
populates the reparent journal on it when requested.

Each replica goroutine (`handleReplica`) either records one error (from
`ReplicaWasRunning` or `SetMaster`; both are folded into the per-replica
outcome oracle `replicaErr`) or appends its tablet to
`replicasStartedReplication`.  The successes are listed here in tablet-map
order; the Go append order is scheduling-dependent and unspecified.

`replSuccessCancel` is invoked only by a successful replica goroutine and only
when `waitForAllReplicas` is false, so the early `replSuccessCtx.Done` branch
of the final `select` (which returns a nil list) is reachable only in that
mode; `earlySignalFirst` models which of the two racing context cancellations
the `select` observes first when both can fire.  The `errCount > numReplicas`
branch cannot occur (each goroutine records at most one error), which the
embedding reflects by construction. -/
def reparentReplicas (renv : ReparentEnv) (replicaErr : String → Option Err)
    (earlySignalFirst : Bool) (newPrimaryTablet : Tablet)
    (tabletMap : List (String × Tablet)) (opts : EmergencyReparentOptions)
    (waitForAllReplicas populateReparentJournal : Bool) : Except Err (List Tablet) :=
  let replicas := fannedOutReplicas newPrimaryTablet tabletMap opts
  let numReplicas := replicas.length
  let errs := replicas.filter (fun p => (replicaErr p.1).isSome)
  let started := (replicas.filter (fun p => (replicaErr p.1).isNone)).map Prod.snd
  match handlePrimary renv populateReparentJournal with
  | some e => .error (.wrapped "failed to PopulateReparentJournal on primary" e)
  | none =>
    if !waitForAllReplicas && !started.isEmpty && earlySignalFirst then
      -- replSuccessCtx.Done fired first: the accumulated list is not returned.
      .ok []
    else
      -- allReplicasDoneCtx.Done fired: every replica goroutine has finished.
      if errs.length = numReplicas then
        .error (.wrapped "replica(s) failed" (.aggregated errs.length))
      else
        .ok started

/-- `promoteIntermediatePrimary`: reparent every other tablet to the
intermediate source without promoting it (waitForAllReplicas true,
populateReparentJournal false) and append the intermediate itself to the
returned improvement candidates. -/
def promoteIntermediatePrimary (renv : ReparentEnv) (replicaErr : String → Option Err)
    (earlySignalFirst : Bool) (newPrimary : Tablet) (tabletMap : List (String × Tablet))
    (opts : EmergencyReparentOptions) : Except Err (List Tablet) :=
  match reparentReplicas renv replicaErr earlySignalFirst newPrimary tabletMap opts true false with
  | .error e => .error e
  | .ok validCandidatesForImprovement => .ok (validCandidatesForImprovement ++ [newPrimary])

/-- Modelled from the spec: `findPossibleCandidateFromListWithRestrictions` is
not part of this excerpt.  It returns the first candidate in the list that
(a) when `checkEqualNewPrimary` is set, is the promoted tablet itself, and
(b) when `checkSameCell` is set, shares a cell with the previous primary (no
restriction when the previous primary is unknown). -/
def findPossibleCandidateFromListWithRestrictions (newPrimary : Tablet)
    (prevPrimary : Option Tablet) (possibleCandidates : List Tablet)
    (checkEqualNewPrimary checkSameCell : Bool) : Option Tablet :=
  possibleCandidates.find? (fun candidate =>
    (!checkEqualNewPrimary || decide (candidate.Alias = newPrimary.Alias)) &&
    (!checkSameCell ||
      (match prevPrimary with
       | some p => decide (candidate.Alias.cell = p.Alias.cell)
       | none => true)))

/-- First defined element of a list of options. -/
def firstSome {α : Type} : List (Option α) → Option α
  | [] => none
  | some t :: _ => some t
  | none :: rest => firstSome rest

/-- `identifyPrimaryCandidate`: picks the final primary candidate.  With an
explicitly requested primary, the requested tablet wins whenever it is in the
supplied valid-candidates list (INTERNAL error if it is missing from the
tablet map, ABORTED if it is not in the list).  Otherwise the preference
ladder runs over the preferred (MUST/PREFER) and then neutral candidates, the
cross-cell rungs skipped under `preventCrossCellPromotion`, falling back to
the promoted tablet.  Go compares tablets by pointer; tablets here are
compared structurally, which coincides because all candidates originate from
the same tablet-map entries. -/
def identifyPrimaryCandidate (newPrimary : Tablet) (prevPrimary : Option Tablet)
    (validCandidates : List Tablet) (tabletMap : List (String × Tablet))
    (opts : EmergencyReparentOptions) : Except Err Tablet :=
  match opts.newPrimaryAlias with
  | some requested =>
    match lookup tabletMap (tabletAliasString requested) with
    | none => .error (.notInTabletMap (tabletAliasString requested))
    | some requestedTablet =>
      if validCandidates.any (fun c => decide (c.Alias = requested)) then
        .ok requestedTablet
      else
        .error (.notInValidList (tabletAliasString requested))
  | none =>
    let preferredCandidates := validCandidates.filter (fun c =>
      decide (PromotionRule c = .must) || decide (PromotionRule c = .prefer))
    let neutralReplicas := validCandidates.filter (fun c => decide (PromotionRule c = .neutral))
    let fp := findPossibleCandidateFromListWithRestrictions newPrimary prevPrimary
    let unlessPrevented (o : Option Tablet) : Option Tablet :=
      if opts.preventCrossCellPromotion then none else o
    match firstSome
        [fp preferredCandidates true true,
         fp preferredCandidates false true,
         unlessPrevented (fp preferredCandidates true false),
         unlessPrevented (fp preferredCandidates false false),
         fp neutralReplicas true true,
         fp neutralReplicas false true,
         unlessPrevented (fp neutralReplicas true false),
         unlessPrevented (fp neutralReplicas false false)] with
    | some candidate => .ok candidate
    | none => .ok newPrimary

/-- `intermediateCandidateIsIdeal`: the intermediate candidate is ideal when
re-running the final selection over the current valid candidates returns it
unchanged. -/
def intermediateCandidateIsIdeal (newPrimary : Tablet) (prevPrimary : Option Tablet)
    (validCandidates : List Tablet) (tabletMap : List (String × Tablet))
    (opts : EmergencyReparentOptions) : Except Err Bool :=
  match identifyPrimaryCandidate newPrimary prevPrimary validCandidates tabletMap opts with
  | .error e => .error e
  | .ok candidate => .ok (decide (candidate = newPrimary))

/-- `checkIfConstraintsSatisfied`: the elected primary must share a cell with
the previous primary under `preventCrossCellPromotion` (only when the previous
primary is known), and must not carry the MUST_NOT promotion rule. -/
def checkIfConstraintsSatisfied (newPrimary : Tablet) (prevPrimary : Option Tablet)
    (opts : EmergencyReparentOptions) : Option Err :=
  if opts.preventCrossCellPromotion &&
      (match prevPrimary with
       | some p => !(decide (newPrimary.Alias.cell = p.Alias.cell))
       | none => false) then
    some (.geoConstraint (tabletAliasString newPrimary.Alias))
  else if decide (PromotionRule newPrimary = .mustNot) then
    some (.promotionRuleConstraint (tabletAliasString newPrimary.Alias))
  else
    none

/-- Modelled from the spec: `restrictValidCandidates` is not part of this
excerpt.  Per the spec's filter rules it removes candidates whose tablet type
is not eligible (drained, backup, restore) and fails with an internal error
when a candidate is missing from the tablet map. -/
def restrictValidCandidates :
    List (String × Position) → List (String × Tablet) → Except Err (List (String × Position))
  | [], _ => .ok []
  | (a, pos) :: rest, tabletMap =>
    match lookup tabletMap a with
    | none => .error (.notInTabletMap a)
    | some t =>
      match restrictValidCandidates rest tabletMap with
      | .error e => .error e
      | .ok restOk =>
        if t.typ = .drained || t.typ = .backup || t.typ = .restore then
          .ok restOk
        else
          .ok ((a, pos) :: restOk)

/-- The orchestrator's externally observable steps, in the order
`reparentShardLocked` performs them; the trace of a run records which were
reached. -/
inductive Step where
  | readShard
  | readPrevPrimary
  | readTabletMap
  | stopReplication
  | checkLock1
  | findValidCandidatesRun
  | restrictCandidates
  | waitRelayLogs
  | intermediateSelect
  | idealCheck
  | checkLock2
  | intermediateReparent
  | finalSelect
  | finalCatchUp
  | constraintCheck
  | promote
deriving DecidableEq, Repr

/-- Results of every external (topology-store or tablet-manager) call the
orchestrator makes, supplied by the environment.  Oracles for the promotion
phase are keyed by the alias string of the tablet being promoted, so a
compensation run may behave differently from the original promotion. -/
structure OrchEnv where
  /-- `ts.GetShard`. -/
  getShardResult : Except Err ShardInfo
  /-- `ts.GetTablet` on the shard record's primary alias. -/
  getTabletResult : Except Err Tablet
  /-- `ts.GetTabletMapForShard`. -/
  getTabletMapResult : Except Err (List (String × Tablet))
  /-- `StopReplicationAndBuildStatusMaps` (its status maps feed only the
  errant-GTID filter, which is itself an oracle below). -/
  stopStatusResult : Except Err Unit
  /-- First `topo.CheckShardLocked`. -/
  checkLock1Result : Option Err
  /-- `FindValidEmergencyReparentCandidates`: the errant-GTID filter is not
  part of this excerpt; its output map is supplied by the environment. -/
  findValidCandidatesResult : Except Err (List (String × Position))
  /-- `waitForAllRelayLogsToApply` (a fan-out of external
  `WaitForRelayLogsToApply` RPCs under an all-required error group). -/
  waitRelayResult : Option Err
  /-- Second `topo.CheckShardLocked`. -/
  checkLock2Result : Option Err
  /-- Primary-side calls of the intermediate (non-promoting) reparent. -/
  intermediateReparentEnv : ReparentEnv
  /-- Per-replica outcomes of the intermediate reparent. -/
  intermediateReplicaErr : String → Option Err
  /-- Scheduling of the intermediate reparent's final select (irrelevant in
  waitForAllReplicas mode). -/
  intermediateEarlyFirst : Bool
  /-- `waitForCatchUp` of the better candidate to the intermediate source. -/
  waitForCatchUpResult : Option Err
  /-- `tmc.PromoteReplica`, keyed by the promoted tablet's alias string. -/
  promoteReplicaResult : String → Option Err
  /-- Primary-side calls of the final (promoting) reparent, keyed by the
  promoted tablet's alias string. -/
  finalReparentEnv : String → ReparentEnv
  /-- Per-replica outcomes of the final reparent, keyed by the promoted
  tablet's alias string. -/
  finalReplicaErr : String → String → Option Err
  /-- Scheduling of the final reparent's select, keyed by the promoted
  tablet's alias string. -/
  finalEarlyFirst : String → Bool

/-- The previous primary according to the shard record: absent when the record
carries no primary alias, otherwise read with `ts.GetTablet`. -/
def ersPrevPrimary (env : OrchEnv) (shardInfo : ShardInfo) : Except Err (Option Tablet) :=
  match shardInfo.primaryAlias with
  | none => .ok none
  | some _ =>
    match env.getTabletResult with
    | .error e => .error e
    | .ok t => .ok (some t)

/-- The preparation steps of `reparentShardLocked` in order; a run's
preparation trace is always a prefix of this list. -/
def prepSteps : List Step :=
  [.readShard, .readPrevPrimary, .readTabletMap, .stopReplication, .checkLock1,
   .findValidCandidatesRun, .restrictCandidates, .waitRelayLogs]

/-- Lines 207-266 of `reparentShardLocked`: read the shard record and the
previous primary, read the tablet map, stop replication everywhere, re-check
the shard lock, compute the valid candidates (errant-GTID filter then
eligibility restriction), fail FAILED_PRECONDITION when none remain, and wait
for relay logs to apply. -/
def ersPrepare (env : OrchEnv) :
    List Step × Except Err (Option Tablet × List (String × Tablet) × List (String × Position)) :=
  match env.getShardResult with
  | .error e => (prepSteps.take 1, .error e)
  | .ok shardInfo =>
    match ersPrevPrimary env shardInfo with
    | .error e => (prepSteps.take 2, .error e)
    | .ok prevPrimary =>
      match env.getTabletMapResult with
      | .error e => (prepSteps.take 3, .error (.wrapped "failed to get tablet map" e))
      | .ok tabletMap =>
        match env.stopStatusResult with
        | .error e =>
          (prepSteps.take 4, .error (.wrapped "failed to stop replication and build status maps" e))
        | .ok _ =>
          match env.checkLock1Result with
          | some e => (prepSteps.take 5, .error (.wrapped "lost topology lock, aborting" e))
          | none =>
            match env.findValidCandidatesResult with
            | .error e => (prepSteps.take 6, .error e)
            | .ok candidates0 =>
              match restrictValidCandidates candidates0 tabletMap with
              | .error e => (prepSteps.take 7, .error e)
              | .ok validCandidates =>
                if validCandidates.isEmpty then
                  (prepSteps.take 7, .error .noValidCandidates)
                else
                  match env.waitRelayResult with
                  | some e =>
                    (prepSteps.take 8,
                     .error (.wrapped "could not apply all relay logs within the provided waitReplicasTimeout" e))
                  | none => (prepSteps.take 8, .ok (prevPrimary, tabletMap, validCandidates))

/-- `promoteNewPrimary`: `tmc.PromoteReplica` on the candidate, then the final
(promoting) reparent of all other replicas (waitForAllReplicas false,
populateReparentJournal true).  Returns the error, if any. -/
def promoteNewPrimary (env : OrchEnv) (opts : EmergencyReparentOptions) (newPrimary : Tablet)
    (tabletMap : List (String × Tablet)) : Option Err :=
  let aliasStr := tabletAliasString newPrimary.Alias
  match env.promoteReplicaResult aliasStr with
  | some e => some (.wrapped "primary-elect tablet failed to be upgraded to primary" e)
  | none =>
    match reparentReplicas (env.finalReparentEnv aliasStr) (env.finalReplicaErr aliasStr)
        (env.finalEarlyFirst aliasStr) newPrimary tabletMap opts false true with
    | .error e => some e
    | .ok _ => none

/-- Lines 320-346 of `reparentShardLocked`: the constraint check on the
elected primary, the compensation path, and the final promotion.  When the
constraint check fails, the deferred closure replaces a nil outgoing error
with the constraint error and joins a non-nil one with it; compensation is
attempted only when the previous primary is known. -/
def ersFinish (env : OrchEnv) (opts : EmergencyReparentOptions) (prevPrimary : Option Tablet)
    (newPrimary : Tablet) (tabletMap : List (String × Tablet)) :
    List Step × Except Err Tablet :=
  match checkIfConstraintsSatisfied newPrimary prevPrimary opts with
  | none =>
    match promoteNewPrimary env opts newPrimary tabletMap with
    | some e => ([.constraintCheck, .promote], .error e)
    | none => ([.constraintCheck, .promote], .ok newPrimary)
  | some constraintFailure =>
    match prevPrimary with
    | none => ([.constraintCheck], .error (.undoJoin .noPrevPrimary constraintFailure))
    | some pp =>
      match promoteNewPrimary env opts pp tabletMap with
      | some e => ([.constraintCheck, .promote], .error (.undoJoin e constraintFailure))
      | none => ([.constraintCheck, .promote], .error constraintFailure)

/-- Lines 270-346 of `reparentShardLocked`: intermediate selection, ideality
check, second lock check, then either the direct promotion of an ideal
intermediate, or the non-promoting intermediate reparent followed by the final
selection, the optional catch-up of a different better candidate, and the
constrained promotion. -/
def ersSelectAndPromote (env : OrchEnv) (opts : EmergencyReparentOptions)
    (prevPrimary : Option Tablet) (tabletMap : List (String × Tablet))
    (validCandidates : List (String × Position)) : List Step × Except Err Tablet :=
  match findMostAdvanced prevPrimary validCandidates tabletMap opts with
  | .error e => ([.intermediateSelect], .error e)
  | .ok (intermediateSource, validCandidateTablets) =>
    match intermediateCandidateIsIdeal intermediateSource prevPrimary validCandidateTablets
        tabletMap opts with
    | .error e => ([.intermediateSelect, .idealCheck], .error e)
    | .ok isIdeal =>
      match env.checkLock2Result with
      | some e =>
        ([.intermediateSelect, .idealCheck, .checkLock2],
         .error (.wrapped "lost topology lock, aborting" e))
      | none =>
        if isIdeal then
          ([.intermediateSelect, .idealCheck, .checkLock2] ++
             (ersFinish env opts prevPrimary intermediateSource tabletMap).1,
           (ersFinish env opts prevPrimary intermediateSource tabletMap).2)
        else
          match promoteIntermediatePrimary env.intermediateReparentEnv
              env.intermediateReplicaErr env.intermediateEarlyFirst intermediateSource
              tabletMap opts with
          | .error e =>
            ([.intermediateSelect, .idealCheck, .checkLock2, .intermediateReparent], .error e)
          | .ok validReplacementCandidates =>
            match identifyPrimaryCandidate intermediateSource prevPrimary
                validReplacementCandidates tabletMap opts with
            | .error e =>
              ([.intermediateSelect, .idealCheck, .checkLock2, .intermediateReparent,
                .finalSelect], .error e)
            | .ok betterCandidate =>
              if betterCandidate.Alias = intermediateSource.Alias then
                ([.intermediateSelect, .idealCheck, .checkLock2, .intermediateReparent,
                  .finalSelect] ++
                   (ersFinish env opts prevPrimary intermediateSource tabletMap).1,
                 (ersFinish env opts prevPrimary intermediateSource tabletMap).2)
              else
                match env.waitForCatchUpResult with
                | some e =>
                  ([.intermediateSelect, .idealCheck, .checkLock2, .intermediateReparent,
                    .finalSelect, .finalCatchUp], .error e)
                | none =>
                  ([.intermediateSelect, .idealCheck, .checkLock2, .intermediateReparent,
                    .finalSelect, .finalCatchUp] ++
                     (ersFinish env opts prevPrimary betterCandidate tabletMap).1,
                   (ersFinish env opts prevPrimary betterCandidate tabletMap).2)

/-- `reparentShardLocked`: the full orchestration under the shard lock,
returning the trace of reached steps and either the promoted primary
(`ev.NewPrimary`) or the terminal error. -/
def reparentShardLocked (env : OrchEnv) (opts : EmergencyReparentOptions) :
    List Step × Except Err Tablet :=
  match (ersPrepare env).2 with
  | .error e => ((ersPrepare env).1, .error e)
  | .ok (prevPrimary, tabletMap, validCandidates) =>
    ((ersPrepare env).1 ++ (ersSelectAndPromote env opts prevPrimary tabletMap validCandidates).1,
     (ersSelectAndPromote env opts prevPrimary tabletMap validCandidates).2)

deriving instance DecidableEq for Except

/-- One invocation of `ReparentShard`: the result plus the deltas applied to
`ers_success_counter` and `ers_failure_counter`. -/
structure ERSRun where
  result : Except Err Tablet
  successDelta : Nat
  failureDelta : Nat
deriving DecidableEq, Repr

/-- `ReparentShard`: acquire the shard lock (failure returns immediately,
before the counter-dispatch defer is installed), then run the locked
orchestration; the deferred block increments the success counter on a nil
terminal error and the failure counter otherwise. -/
def ReparentShard (lockShardResult : Option Err) (env : OrchEnv)
    (opts : EmergencyReparentOptions) : ERSRun :=
  match lockShardResult with
  | some e => { result := .error e, successDelta := 0, failureDelta := 0 }
  | none =>
    match (reparentShardLocked env opts).2 with
    | .ok t => { result := .ok t, successDelta := 1, failureDelta := 0 }
    | .error e => { result := .error e, successDelta := 0, failureDelta := 1 }

/-- Claim C10: when the shard record carries no previous-primary information,
`checkIfConstraintsSatisfied` never reports a cross-cell violation even if
`PreventCrossCellPromotion` is set: every candidate whose promotion rule is
not MUST_NOT passes the check, so a final primary in any cell is accepted. -/
theorem checkIfConstraintsSatisfied_noPrevPrimary (newPrimary : Tablet)
    (opts : EmergencyReparentOptions) (h : PromotionRule newPrimary ≠ .mustNot) :
    checkIfConstraintsSatisfied newPrimary none opts = none := by
  unfold checkIfConstraintsSatisfied
  simp [h]

/-- Witness for C10: a NEUTRAL-rule tablet passes the constraint check with no
previous primary even under `preventCrossCellPromotion`. -/
theorem checkIfConstraintsSatisfied_noPrevPrimary_witness :
    PromotionRule ⟨⟨"z1", 1⟩, .replica, .neutral⟩ ≠ .mustNot ∧
    checkIfConstraintsSatisfied ⟨⟨"z1", 1⟩, .replica, .neutral⟩ none ⟨none, [], true⟩ = none :=
  ⟨by decide, checkIfConstraintsSatisfied_noPrevPrimary ⟨⟨"z1", 1⟩, .replica, .neutral⟩
    ⟨none, [], true⟩ (by decide)⟩

/-- Claim C6: in final candidate selection with `options.new_primary_alias`
set and the requested tablet present in the tablet map, the requested tablet
is returned whenever it is in the supplied valid-candidates list, regardless
of its promotion rule, cell, or `prevent_cross_cell_promotion`; when it is
absent from that list, the selection fails ABORTED ("requested candidate is
not in valid candidates list"). -/
theorem identifyPrimaryCandidate_requested (newPrimary : Tablet) (prevPrimary : Option Tablet)
    (validCandidates : List Tablet) (tabletMap : List (String × Tablet))
    (opts : EmergencyReparentOptions) (requested : TabletAlias) (requestedTablet : Tablet)
    (hreq : opts.newPrimaryAlias = some requested)
    (hmap : lookup tabletMap (tabletAliasString requested) = some requestedTablet) :
    (validCandidates.any (fun c => decide (c.Alias = requested)) = true →
      identifyPrimaryCandidate newPrimary prevPrimary validCandidates tabletMap opts =
        .ok requestedTablet) ∧
    (validCandidates.any (fun c => decide (c.Alias = requested)) = false →
      identifyPrimaryCandidate newPrimary prevPrimary validCandidates tabletMap opts =
        .error (.notInValidList (tabletAliasString requested)) ∧
      (Err.notInValidList (tabletAliasString requested)).code = .aborted) := by
  unfold identifyPrimaryCandidate
  rw [hreq]
  simp only [hmap]
  constructor
  · intro h
    simp [h]
  · intro h
    simp [h, Err.code]

/-- The requested tablet of the C6 witness: MUST_NOT rule, foreign cell. -/
def tabC6req : Tablet := ⟨⟨"z2", 1⟩, .replica, .mustNot⟩

/-- The already-promoted tablet of the C6 witness. -/
def tabC6np : Tablet := ⟨⟨"z1", 2⟩, .replica, .neutral⟩

/-- Tablet map of the C6 witness. -/
def tmC6 : List (String × Tablet) := [("z2-1", tabC6req), ("z1-2", tabC6np)]

/-- Options of the C6 witness: the MUST_NOT, cross-cell tablet is requested
under `preventCrossCellPromotion`. -/
def optsC6 : EmergencyReparentOptions := ⟨some ⟨"z2", 1⟩, [], true⟩

/-- Witness for C6: a requested tablet carrying MUST_NOT, in a foreign cell,
under `preventCrossCellPromotion`, still wins final selection because it is in
the valid-candidates list. -/
theorem identifyPrimaryCandidate_requested_witness :
    optsC6.newPrimaryAlias = some ⟨"z2", 1⟩ ∧
    lookup tmC6 (tabletAliasString ⟨"z2", 1⟩) = some tabC6req ∧
    (([tabC6req, tabC6np].any (fun c => decide (c.Alias = (⟨"z2", 1⟩ : TabletAlias))) = true →
      identifyPrimaryCandidate tabC6np none [tabC6req, tabC6np] tmC6 optsC6 = .ok tabC6req) ∧
    ([tabC6req, tabC6np].any (fun c => decide (c.Alias = (⟨"z2", 1⟩ : TabletAlias))) = false →
      identifyPrimaryCandidate tabC6np none [tabC6req, tabC6np] tmC6 optsC6 =
        .error (.notInValidList (tabletAliasString ⟨"z2", 1⟩)) ∧
      (Err.notInValidList (tabletAliasString ⟨"z2", 1⟩)).code = .aborted)) :=
  ⟨rfl, by decide,
    identifyPrimaryCandidate_requested tabC6np none [tabC6req, tabC6np] tmC6 optsC6
      ⟨"z2", 1⟩ tabC6req rfl (by decide)⟩

/-- Concrete data for the C3 counterexample: one fanned-out replica whose
SetMaster succeeds, while the primary-side MasterPosition call fails. -/
def tabC3 : Tablet := ⟨⟨"z1", 1⟩, .replica, .neutral⟩

/-- Second tablet for the C3 counterexample. -/
def tabC3b : Tablet := ⟨⟨"z1", 2⟩, .replica, .neutral⟩

/-- Tablet map for the C3 counterexample. -/
def tmC3 : List (String × Tablet) := [("z1-1", tabC3), ("z1-2", tabC3b)]

/-- Options for the C3 counterexample. -/
def optsC3 : EmergencyReparentOptions := ⟨none, [], false⟩

/-- Primary-side environment for the C3 counterexample: MasterPosition fails. -/
def renvC3 : ReparentEnv := ⟨.error (.external "MasterPosition failed"), none⟩

/-- Per-replica outcomes for the C3 counterexample: every replica succeeds. -/
def replErrC3 : String → Option Err := fun _ => none

/-- Third tablet for the C3 amended witness. -/
def tabC3c : Tablet := ⟨⟨"z1", 3⟩, .replica, .neutral⟩

/-- Tablet map for the C3 amended witness: two fanned-out replicas. -/
def tmC3w : List (String × Tablet) := [("z1-1", tabC3), ("z1-2", tabC3b), ("z1-3", tabC3c)]

/-- Claim C3 counterexample: with `waitForAllReplicas` true,
`reparentReplicas` fails when the primary-side MasterPosition call fails, even
though the number of per-replica errors (0) differs from the number of
replicas fanned out to (1) — so "fails if and only if #errors == #replicas"
is false as stated. -/
theorem reparentReplicas_waitForAll_counterexample :
    exceptOk (reparentReplicas renvC3 replErrC3 false tabC3 tmC3 optsC3 true false) = false ∧
    ((fannedOutReplicas tabC3 tmC3 optsC3).filter
      (fun p => (replErrC3 p.1).isSome)).length = 0 ∧
    (fannedOutReplicas tabC3 tmC3 optsC3).length = 1 := by
  decide

/-- Claim C3 (amended): when `reparentReplicas` is called with
`waitForAllReplicas` true and the primary-side step (MasterPosition and, when
requested, the journal write) succeeds, it awaits every replica goroutine
regardless of scheduling: it fails if and only if the number of per-replica
errors equals the number of replicas fanned out to, and otherwise returns the
accumulated list of replicas that successfully started replication — never a
nil list through the first-replica-success early path, which is unreachable in
this mode. -/
theorem reparentReplicas_waitForAll_amended (renv : ReparentEnv)
    (replicaErr : String → Option Err) (earlySignalFirst : Bool) (np : Tablet)
    (tabletMap : List (String × Tablet)) (opts : EmergencyReparentOptions)
    (populateReparentJournal : Bool)
    (hprimary : handlePrimary renv populateReparentJournal = none) :
    (exceptOk (reparentReplicas renv replicaErr earlySignalFirst np tabletMap opts true
        populateReparentJournal) = false ↔
      ((fannedOutReplicas np tabletMap opts).filter
        (fun p => (replicaErr p.1).isSome)).length =
        (fannedOutReplicas np tabletMap opts).length) ∧
    (((fannedOutReplicas np tabletMap opts).filter
        (fun p => (replicaErr p.1).isSome)).length ≠
        (fannedOutReplicas np tabletMap opts).length →
      reparentReplicas renv replicaErr earlySignalFirst np tabletMap opts true
          populateReparentJournal =
        .ok (((fannedOutReplicas np tabletMap opts).filter
          (fun p => (replicaErr p.1).isNone)).map Prod.snd)) := by
  unfold reparentReplicas
  rw [hprimary]
  by_cases hlen : ((fannedOutReplicas np tabletMap opts).filter
      (fun p => (replicaErr p.1).isSome)).length = (fannedOutReplicas np tabletMap opts).length
  · simp [hlen, exceptOk]
  · simp [hlen, exceptOk]

/-- Witness for C3 (amended): two replicas, one failing — the call succeeds
and returns exactly the replica that started replication. -/
theorem reparentReplicas_waitForAll_amended_witness :
    handlePrimary ⟨.ok [1], none⟩ false = none ∧
    ((exceptOk (reparentReplicas ⟨.ok [1], none⟩
        (fun a => if a = "z1-2" then some (.external "SetMaster failed") else none) false
        tabC3 tmC3w optsC3 true false) = false ↔
      ((fannedOutReplicas tabC3 tmC3w optsC3).filter
        (fun p => ((fun a => if a = "z1-2" then some (Err.external "SetMaster failed") else none)
          p.1).isSome)).length = (fannedOutReplicas tabC3 tmC3w optsC3).length) ∧
    (((fannedOutReplicas tabC3 tmC3w optsC3).filter
        (fun p => ((fun a => if a = "z1-2" then some (Err.external "SetMaster failed") else none)
          p.1).isSome)).length ≠ (fannedOutReplicas tabC3 tmC3w optsC3).length →
      reparentReplicas ⟨.ok [1], none⟩
          (fun a => if a = "z1-2" then some (.external "SetMaster failed") else none) false
          tabC3 tmC3w optsC3 true false =
        .ok (((fannedOutReplicas tabC3 tmC3w optsC3).filter
          (fun p => ((fun a => if a = "z1-2" then some (Err.external "SetMaster failed") else none)
            p.1).isNone)).map Prod.snd))) :=
  ⟨rfl, reparentReplicas_waitForAll_amended ⟨.ok [1], none⟩
    (fun a => if a = "z1-2" then some (.external "SetMaster failed") else none) false
    tabC3 tmC3w optsC3 false rfl⟩

/-- A concrete environment for the C9 counterexample (its contents are never
reached: the lock failure returns first). -/
def envC9 : OrchEnv :=
  { getShardResult := .ok ⟨none⟩
    getTabletResult := .error (.external "unused")
    getTabletMapResult := .ok []
    stopStatusResult := .ok ()
    checkLock1Result := none
    findValidCandidatesResult := .ok []
    waitRelayResult := none
    checkLock2Result := none
    intermediateReparentEnv := ⟨.ok [], none⟩
    intermediateReplicaErr := fun _ => none
    intermediateEarlyFirst := false
    waitForCatchUpResult := none
    promoteReplicaResult := fun _ => none
    finalReparentEnv := fun _ => ⟨.ok [], none⟩
    finalReplicaErr := fun _ _ => none
    finalEarlyFirst := fun _ => true }

/-- Options for the C9 counterexample. -/
def optsC9 : EmergencyReparentOptions := ⟨none, [], false⟩

/-- Claim C9 counterexample: when shard lock acquisition fails,
`ReparentShard` returns a non-nil error but increments neither
`ers_success_counter` nor `ers_failure_counter` (the counting defer is
installed only after the lock is acquired), so the combined delta is 0, not
1. -/
theorem ReparentShard_counters_counterexample :
    ReparentShard (some (.external "lock shard failed")) envC9 optsC9 =
      { result := .error (.external "lock shard failed"), successDelta := 0, failureDelta := 0 } ∧
    ¬ ((ReparentShard (some (.external "lock shard failed")) envC9 optsC9).successDelta +
        (ReparentShard (some (.external "lock shard failed")) envC9 optsC9).failureDelta = 1) := by
  constructor
  · rfl
  · decide

/-- Claim C9 (amended): whenever shard lock acquisition succeeds, exactly one
of the two counters is incremented by exactly 1 — the success counter if and
only if the operation returns a nil error; when lock acquisition fails, the
error is returned with neither counter incremented. -/
theorem ReparentShard_counters_amended (env : OrchEnv) (opts : EmergencyReparentOptions) :
    (∀ e, ReparentShard (some e) env opts =
      { result := .error e, successDelta := 0, failureDelta := 0 }) ∧
    (ReparentShard none env opts).successDelta +
      (ReparentShard none env opts).failureDelta = 1 ∧
    ((ReparentShard none env opts).successDelta = 1 ↔
      exceptOk (ReparentShard none env opts).result = true) := by
  refine ⟨fun e => rfl, ?_, ?_⟩ <;>
    · unfold ReparentShard
      rcases h : (reparentShardLocked env opts).2 with t | e <;> simp [exceptOk]

/-- Claim C4: after the constraint check fails, the tail of
`reparentShardLocked` (`ersFinish`) always returns a non-nil error.  When the
previous primary is unknown it returns an ABORTED error without attempting any
undo promotion (no promote step in the trace); otherwise it re-runs promotion
targeting the previous primary and returns the constraint error alone when the
undo succeeds, or the undo error joined with the constraint error (an ABORTED
error carrying both) when it fails. -/
theorem ersFinish_constraint_failure (env : OrchEnv) (opts : EmergencyReparentOptions)
    (prevPrimary : Option Tablet) (newPrimary : Tablet) (tabletMap : List (String × Tablet))
    (cf : Err) (hc : checkIfConstraintsSatisfied newPrimary prevPrimary opts = some cf) :
    (∀ t, (ersFinish env opts prevPrimary newPrimary tabletMap).2 ≠ .ok t) ∧
    (prevPrimary = none →
      (ersFinish env opts prevPrimary newPrimary tabletMap).2 =
        .error (.undoJoin .noPrevPrimary cf) ∧
      (Err.undoJoin .noPrevPrimary cf).code = .aborted ∧
      Step.promote ∉ (ersFinish env opts prevPrimary newPrimary tabletMap).1) ∧
    (∀ p, prevPrimary = some p →
      (promoteNewPrimary env opts p tabletMap = none →
        (ersFinish env opts prevPrimary newPrimary tabletMap).2 = .error cf) ∧
      (∀ e, promoteNewPrimary env opts p tabletMap = some e →
        (ersFinish env opts prevPrimary newPrimary tabletMap).2 =
          .error (.undoJoin e cf) ∧
        (Err.undoJoin e cf).code = .aborted)) := by
  unfold ersFinish
  rw [hc]
  rcases prevPrimary with _ | p
  · dsimp only
    refine ⟨?_, ?_, ?_⟩
    · intro t h
      simp at h
    · intro _
      exact ⟨rfl, rfl, by decide⟩
    · intro p h
      cases h
  · dsimp only
    refine ⟨?_, ?_, ?_⟩
    · intro t h
      rcases hp : promoteNewPrimary env opts p tabletMap with _ | e <;> rw [hp] at h <;> simp at h
    · intro h
      cases h
    · intro q hq
      injection hq with hq
      subst hq
      constructor
      · intro hp
        rw [hp]
      · intro e hp
        rw [hp]
        exact ⟨rfl, rfl⟩

/-- Previous primary for the C4 witness. -/
def tabC4prev : Tablet := ⟨⟨"z1", 1⟩, .primary, .neutral⟩

/-- Elected primary for the C4 witness: it violates the MUST_NOT promotion
rule constraint. -/
def tabC4np : Tablet := ⟨⟨"z1", 2⟩, .replica, .mustNot⟩

/-- Tablet map for the C4 witness. -/
def tmC4 : List (String × Tablet) := [("z1-1", tabC4prev), ("z1-2", tabC4np)]

/-- Options for the C4 witness. -/
def optsC4 : EmergencyReparentOptions := ⟨none, [], false⟩

/-- Environment for the C4 witness: the undo promotion of the previous primary
succeeds. -/
def envC4 : OrchEnv :=
  { getShardResult := .ok ⟨some ⟨"z1", 1⟩⟩
    getTabletResult := .ok tabC4prev
    getTabletMapResult := .ok tmC4
    stopStatusResult := .ok ()
    checkLock1Result := none
    findValidCandidatesResult := .ok []
    waitRelayResult := none
    checkLock2Result := none
    intermediateReparentEnv := ⟨.ok [], none⟩
    intermediateReplicaErr := fun _ => none
    intermediateEarlyFirst := false
    waitForCatchUpResult := none
    promoteReplicaResult := fun _ => none
    finalReparentEnv := fun _ => ⟨.ok [], none⟩
    finalReplicaErr := fun _ _ => none
    finalEarlyFirst := fun _ => true }

/-- Witness for C4: a MUST_NOT elected primary fails the constraint check; the
undo promotion of the previous primary succeeds and the constraint error alone
is returned. -/
theorem ersFinish_constraint_failure_witness :
    checkIfConstraintsSatisfied tabC4np (some tabC4prev) optsC4 =
      some (.promotionRuleConstraint (tabletAliasString tabC4np.Alias)) ∧
    ((∀ t, (ersFinish envC4 optsC4 (some tabC4prev) tabC4np tmC4).2 ≠ .ok t) ∧
    (some tabC4prev = none →
      (ersFinish envC4 optsC4 (some tabC4prev) tabC4np tmC4).2 =
        .error (.undoJoin .noPrevPrimary (.promotionRuleConstraint (tabletAliasString tabC4np.Alias))) ∧
      (Err.undoJoin .noPrevPrimary (.promotionRuleConstraint (tabletAliasString tabC4np.Alias))).code = .aborted ∧
      Step.promote ∉ (ersFinish envC4 optsC4 (some tabC4prev) tabC4np tmC4).1) ∧
    (∀ p, some tabC4prev = some p →
      (promoteNewPrimary envC4 optsC4 p tmC4 = none →
        (ersFinish envC4 optsC4 (some tabC4prev) tabC4np tmC4).2 =
          .error (.promotionRuleConstraint (tabletAliasString tabC4np.Alias))) ∧
      (∀ e, promoteNewPrimary envC4 optsC4 p tmC4 = some e →
        (ersFinish envC4 optsC4 (some tabC4prev) tabC4np tmC4).2 =
          .error (.undoJoin e (.promotionRuleConstraint (tabletAliasString tabC4np.Alias))) ∧
        (Err.undoJoin e (.promotionRuleConstraint (tabletAliasString tabC4np.Alias))).code = .aborted))) :=
  ⟨by decide,
    ersFinish_constraint_failure envC4 optsC4 (some tabC4prev) tabC4np tmC4
      (.promotionRuleConstraint (tabletAliasString tabC4np.Alias)) (by decide)⟩

/-- Ordered insertion permutes: inserting `x` yields a permutation of
`x :: l`. -/
theorem insertSorted_perm (le : Tablet × Position → Tablet × Position → Bool)
    (x : Tablet × Position) (l : List (Tablet × Position)) :
    (insertSorted le x l).Perm (x :: l) := by
  induction l with
  | nil => exact List.Perm.refl _
  | cons y ys ih =>
    unfold insertSorted
    by_cases h : le x y = true
    · simp [h]
    · rw [if_neg h]
      exact (ih.cons y).trans (List.Perm.swap x y ys)

/-- The sort permutes its input. -/
theorem sortPairs_perm (le : Tablet × Position → Tablet × Position → Bool)
    (l : List (Tablet × Position)) : (sortPairs le l).Perm l := by
  induction l with
  | nil => exact List.Perm.refl _
  | cons x xs ih => exact (insertSorted_perm le x (sortPairs le xs)).trans (ih.cons x)

/-- The paired list produced by `getValidCandidatesAndPositionsAsList` carries
exactly the input positions, in order. -/
theorem getValid_positions (vc : List (String × Position)) (tm : List (String × Tablet))
    (pairs : List (Tablet × Position))
    (h : getValidCandidatesAndPositionsAsList vc tm = .ok pairs) :
    pairs.map Prod.snd = vc.map Prod.snd := by
  induction vc generalizing pairs with
  | nil =>
    unfold getValidCandidatesAndPositionsAsList at h
    cases h
    rfl
  | cons hd rest ih =>
    obtain ⟨k, v⟩ := hd
    unfold getValidCandidatesAndPositionsAsList at h
    rcases hlk : lookup tm k with _ | t
    · rw [hlk] at h
      simp at h
    · rw [hlk] at h
      dsimp only at h
      rcases hr : getValidCandidatesAndPositionsAsList rest tm with e | restList
      · rw [hr] at h
        simp at h
      · rw [hr] at h
        dsimp only at h
        cases h
        simp [ih restList hr]

/-- Every alias present in the valid-candidates map is present in the tablet
map once `getValidCandidatesAndPositionsAsList` has succeeded. -/
theorem getValid_lookup (vc : List (String × Position)) (tm : List (String × Tablet))
    (pairs : List (Tablet × Position))
    (h : getValidCandidatesAndPositionsAsList vc tm = .ok pairs)
    (a : String) (pos : Position) (hl : lookup vc a = some pos) :
    ∃ t, lookup tm a = some t := by
  induction vc generalizing pairs with
  | nil => simp [lookup] at hl
  | cons hd rest ih =>
    obtain ⟨k, v⟩ := hd
    unfold getValidCandidatesAndPositionsAsList at h
    rcases hlk : lookup tm k with _ | t
    · rw [hlk] at h
      simp at h
    · rw [hlk] at h
      dsimp only at h
      rcases hr : getValidCandidatesAndPositionsAsList rest tm with e | restList
      · rw [hr] at h
        simp at h
      · unfold lookup at hl
        by_cases hk : k = a
        · subst hk
          exact ⟨t, hlk⟩
        · rw [if_neg hk] at hl
          exact ih restList hr hl

/-- Claim C1: in intermediate selection, after the valid candidates are sorted
and the head (most advanced) candidate is chosen, `findMostAdvanced` fails
with a FAILED_PRECONDITION split-brain error — performing no selection, hence
no later promotion — if and only if some valid candidate has a position that
the head's position is not AtLeast.  (The head's own position always passes
its own check, AtLeast being reflexive for GTID-set containment, so
quantifying over all candidates coincides with quantifying over the others.) -/
theorem findMostAdvanced_splitBrain_iff (prevPrimary : Option Tablet)
    (validCandidates : List (String × Position)) (tabletMap : List (String × Tablet))
    (opts : EmergencyReparentOptions) (pairs : List (Tablet × Position))
    (head : Tablet × Position) (tail : List (Tablet × Position))
    (hok : getValidCandidatesAndPositionsAsList validCandidates tabletMap = .ok pairs)
    (hsort : sortTabletsForERS pairs (idealCellOf prevPrimary) = head :: tail) :
    (∃ e, findMostAdvanced prevPrimary validCandidates tabletMap opts = .error e ∧
        e.isSplitBrain = true ∧ e.code = .failedPrecondition) ↔
      ∃ p ∈ validCandidates.map Prod.snd, head.2.AtLeast p = false := by
  have hperm : ((head :: tail).map Prod.snd).Perm (validCandidates.map Prod.snd) := by
    rw [← hsort, ← getValid_positions validCandidates tabletMap pairs hok]
    exact (sortPairs_perm (ersSortBefore (idealCellOf prevPrimary)) pairs).map Prod.snd
  unfold findMostAdvanced
  rw [hok]
  dsimp only
  rw [hsort]
  dsimp only
  rcases hf : (head :: tail).find? (fun tp => !(head.2.AtLeast tp.2)) with _ | tp <;>
    rw [hf] <;> dsimp only
  · -- no split brain detected: the result is never a split-brain error, and
    -- every candidate position is dominated by the head's.
    apply iff_of_false
    · rintro ⟨e, he, hsb, hcode⟩
      repeat' split at he
      all_goals (cases he; try simp [Err.isSplitBrain] at hsb)
    · rintro ⟨p, hmem, hfalse⟩
      have hmem2 : p ∈ (head :: tail).map Prod.snd := hperm.mem_iff.mpr hmem
      obtain ⟨tp, htp, rfl⟩ := List.mem_map.mp hmem2
      have hall := List.find?_eq_none.mp hf tp htp
      simp only [Bool.not_eq_true', Bool.not_eq_false] at hall
      rw [hall] at hfalse
      cases hfalse
  · -- split brain detected at tp.
    apply iff_of_true
    · exact ⟨.splitBrain (tabletAliasString head.1.Alias) (tabletAliasString tp.1.Alias),
        rfl, rfl, rfl⟩
    · have hp := List.find?_some hf
      simp only [Bool.not_eq_true'] at hp
      exact ⟨tp.2, hperm.mem_iff.mp (List.mem_map_of_mem Prod.snd (List.mem_of_find?_eq_some hf)),
        hp⟩

/-- First tablet of the C1 witness. -/
def tabC1a : Tablet := ⟨⟨"z1", 1⟩, .replica, .neutral⟩

/-- Second tablet of the C1 witness; its position is incompatible with the
first one's. -/
def tabC1b : Tablet := ⟨⟨"z1", 2⟩, .replica, .neutral⟩

/-- Tablet map of the C1 witness. -/
def tmC1 : List (String × Tablet) := [("z1-1", tabC1a), ("z1-2", tabC1b)]

/-- Valid candidates of the C1 witness: mutually incomparable positions. -/
def vcC1 : List (String × Position) := [("z1-1", [1]), ("z1-2", [2])]

/-- Options of the C1 witness. -/
def optsC1 : EmergencyReparentOptions := ⟨none, [], false⟩

/-- Witness for C1: two candidates with mutually incomparable positions make
`findMostAdvanced` fail with the FAILED_PRECONDITION split-brain error. -/
theorem findMostAdvanced_splitBrain_iff_witness :
    getValidCandidatesAndPositionsAsList vcC1 tmC1 = .ok [(tabC1a, [1]), (tabC1b, [2])] ∧
    sortTabletsForERS [(tabC1a, [1]), (tabC1b, [2])] (idealCellOf none) =
      (tabC1a, [1]) :: [(tabC1b, [2])] ∧
    ((∃ e, findMostAdvanced none vcC1 tmC1 optsC1 = .error e ∧
        e.isSplitBrain = true ∧ e.code = .failedPrecondition) ↔
      ∃ p ∈ vcC1.map Prod.snd, Position.AtLeast (tabC1a, ([1] : Position)).2 p = false) :=
  ⟨by decide, by decide,
    findMostAdvanced_splitBrain_iff none vcC1 tmC1 optsC1 [(tabC1a, [1]), (tabC1b, [2])]
      (tabC1a, [1]) [(tabC1b, [2])] (by decide) (by decide)⟩

/-- Claim C5: in intermediate selection with `options.new_primary_alias` set
(and past the split-brain check): a requested candidate present in the valid
candidates whose position is AtLeast the most advanced candidate's position is
chosen as the intermediate; present but behind, the most advanced candidate
remains the intermediate; absent from the valid candidates, the operation
fails FAILED_PRECONDITION ("requested primary elect has errant GTIDs"). -/
theorem findMostAdvanced_requested_primary (prevPrimary : Option Tablet)
    (validCandidates : List (String × Position)) (tabletMap : List (String × Tablet))
    (opts : EmergencyReparentOptions) (pairs : List (Tablet × Position))
    (head : Tablet × Position) (tail : List (Tablet × Position)) (requested : TabletAlias)
    (hok : getValidCandidatesAndPositionsAsList validCandidates tabletMap = .ok pairs)
    (hsort : sortTabletsForERS pairs (idealCellOf prevPrimary) = head :: tail)
    (hnosb : (head :: tail).all (fun tp => head.2.AtLeast tp.2) = true)
    (hreq : opts.newPrimaryAlias = some requested) :
    (∀ pos, lookup validCandidates (tabletAliasString requested) = some pos →
      (pos.AtLeast head.2 = true →
        ∃ t, lookup tabletMap (tabletAliasString requested) = some t ∧
          findMostAdvanced prevPrimary validCandidates tabletMap opts =
            .ok (t, (head :: tail).map Prod.fst)) ∧
      (pos.AtLeast head.2 = false →
        findMostAdvanced prevPrimary validCandidates tabletMap opts =
          .ok (head.1, (head :: tail).map Prod.fst))) ∧
    (lookup validCandidates (tabletAliasString requested) = none →
      findMostAdvanced prevPrimary validCandidates tabletMap opts =
        .error (.errantGTIDs (tabletAliasString requested)) ∧
      (Err.errantGTIDs (tabletAliasString requested)).code = .failedPrecondition) := by
  have hfind : (head :: tail).find? (fun tp => !(head.2.AtLeast tp.2)) = none := by
    rw [List.find?_eq_none]
    intro x hx
    have hax := List.all_eq_true.mp hnosb x hx
    simp [hax]
  unfold findMostAdvanced
  rw [hok]
  dsimp only
  rw [hsort]
  dsimp only
  rw [hfind]
  dsimp only
  rw [hreq]
  dsimp only
  constructor
  · intro pos hl
    rw [hl]
    dsimp only
    constructor
    · intro hp
      obtain ⟨t, ht⟩ := getValid_lookup validCandidates tabletMap pairs hok
        (tabletAliasString requested) pos hl
      refine ⟨t, ht, ?_⟩
      simp [hp, ht]
    · intro hp
      simp [hp]
  · intro hl
    rw [hl]
    exact ⟨rfl, rfl⟩

/-- Most advanced tablet of the C5 witness. -/
def tabC5a : Tablet := ⟨⟨"z1", 1⟩, .replica, .neutral⟩

/-- Requested tablet of the C5 witness, equally advanced. -/
def tabC5b : Tablet := ⟨⟨"z1", 2⟩, .replica, .neutral⟩

/-- Tablet map of the C5 witness. -/
def tmC5 : List (String × Tablet) := [("z1-1", tabC5a), ("z1-2", tabC5b)]

/-- Valid candidates of the C5 witness: the requested tablet's position is
AtLeast the head's. -/
def vcC5 : List (String × Position) := [("z1-1", [1]), ("z1-2", [1])]

/-- Options of the C5 witness: tablet `z1-2` is requested. -/
def optsC5 : EmergencyReparentOptions := ⟨some ⟨"z1", 2⟩, [], false⟩

/-- Witness for C5: the requested, equally advanced candidate is chosen as the
intermediate over the sorted head. -/
theorem findMostAdvanced_requested_primary_witness :
    getValidCandidatesAndPositionsAsList vcC5 tmC5 = .ok [(tabC5a, [1]), (tabC5b, [1])] ∧
    sortTabletsForERS [(tabC5a, [1]), (tabC5b, [1])] (idealCellOf none) =
      (tabC5a, [1]) :: [(tabC5b, [1])] ∧
    ((tabC5a, ([1] : Position)) :: [(tabC5b, ([1] : Position))]).all
      (fun tp => Position.AtLeast (tabC5a, ([1] : Position)).2 tp.2) = true ∧
    optsC5.newPrimaryAlias = some ⟨"z1", 2⟩ ∧
    ((∀ pos, lookup vcC5 (tabletAliasString ⟨"z1", 2⟩) = some pos →
      (Position.AtLeast pos (tabC5a, ([1] : Position)).2 = true →
        ∃ t, lookup tmC5 (tabletAliasString ⟨"z1", 2⟩) = some t ∧
          findMostAdvanced none vcC5 tmC5 optsC5 =
            .ok (t, ((tabC5a, ([1] : Position)) :: [(tabC5b, ([1] : Position))]).map Prod.fst)) ∧
      (Position.AtLeast pos (tabC5a, ([1] : Position)).2 = false →
        findMostAdvanced none vcC5 tmC5 optsC5 =
          .ok ((tabC5a, ([1] : Position)).1,
            ((tabC5a, ([1] : Position)) :: [(tabC5b, ([1] : Position))]).map Prod.fst))) ∧
    (lookup vcC5 (tabletAliasString ⟨"z1", 2⟩) = none →
      findMostAdvanced none vcC5 tmC5 optsC5 =
        .error (.errantGTIDs (tabletAliasString ⟨"z1", 2⟩)) ∧
      (Err.errantGTIDs (tabletAliasString ⟨"z1", 2⟩)).code = .failedPrecondition)) :=
  ⟨by decide, by decide, by decide, rfl,
    findMostAdvanced_requested_primary none vcC5 tmC5 optsC5 [(tabC5a, [1]), (tabC5b, [1])]
      (tabC5a, [1]) [(tabC5b, [1])] ⟨"z1", 2⟩ (by decide) (by decide) (by decide) rfl⟩

/-- A successful `ersFinish` returns exactly the candidate it was given, and
only after that candidate passed the constraint check (the compensation path
always ends in an error: the deferred closure replaces a nil error with the
constraint failure). -/
theorem ersFinish_ok (env : OrchEnv) (opts : EmergencyReparentOptions)
    (pp : Option Tablet) (np : Tablet) (tm : List (String × Tablet)) (t : Tablet)
    (h : (ersFinish env opts pp np tm).2 = .ok t) :
    t = np ∧ checkIfConstraintsSatisfied np pp opts = none := by
  unfold ersFinish at h
  rcases hc : checkIfConstraintsSatisfied np pp opts with _ | cf <;> rw [hc] at h <;>
    dsimp only at h
  · rcases hp : promoteNewPrimary env opts np tm with _ | e <;> rw [hp] at h <;>
      dsimp only at h
    · injection h with h
      exact ⟨h.symm, rfl⟩
    · cases h
  · rcases pp with _ | p <;> dsimp only at h
    · cases h
    · rcases hp : promoteNewPrimary env opts p tm with _ | e <;> rw [hp] at h <;>
        dsimp only at h <;> cases h

/-- The trace of `ersFinish` is one of its two possible shapes. -/
theorem ersFinish_trace (env : OrchEnv) (opts : EmergencyReparentOptions)
    (pp : Option Tablet) (np : Tablet) (tm : List (String × Tablet)) :
    (ersFinish env opts pp np tm).1 = [Step.constraintCheck] ∨
    (ersFinish env opts pp np tm).1 = [Step.constraintCheck, Step.promote] := by
  unfold ersFinish
  repeat' split
  all_goals simp

/-- A successful `ersSelectAndPromote` run promoted a candidate that passed
the constraint check. -/
theorem ersSelectAndPromote_ok (env : OrchEnv) (opts : EmergencyReparentOptions)
    (pp : Option Tablet) (tm : List (String × Tablet))
    (vc : List (String × Position)) (t : Tablet)
    (h : (ersSelectAndPromote env opts pp tm vc).2 = .ok t) :
    checkIfConstraintsSatisfied t pp opts = none := by
  unfold ersSelectAndPromote at h
  repeat' split at h
  all_goals dsimp only at h
  all_goals
    first
      | cases h
      | (obtain ⟨rfl, hc⟩ := ersFinish_ok _ _ _ _ _ _ h; exact hc)

/-- A successful `reparentShardLocked` run passed preparation and promoted a
candidate that passed the constraint check against the previous primary read
during preparation. -/
theorem reparentShardLocked_ok (env : OrchEnv) (opts : EmergencyReparentOptions) (t : Tablet)
    (h : (reparentShardLocked env opts).2 = .ok t) :
    ∃ pp tm vc, (ersPrepare env).2 = .ok (pp, tm, vc) ∧
      checkIfConstraintsSatisfied t pp opts = none := by
  unfold reparentShardLocked at h
  rcases hp : (ersPrepare env).2 with e | ⟨pp, tm, vc⟩ <;> rw [hp] at h <;> dsimp only at h
  · cases h
  · exact ⟨pp, tm, vc, rfl, ersSelectAndPromote_ok env opts pp tm vc t h⟩

/-- Unpacking a passing constraint check: the candidate's promotion rule is
not MUST_NOT, and under `preventCrossCellPromotion` with a known previous
primary the cells agree. -/
theorem checkIfConstraintsSatisfied_none (np : Tablet) (pp : Option Tablet)
    (opts : EmergencyReparentOptions)
    (hc : checkIfConstraintsSatisfied np pp opts = none) :
    PromotionRule np ≠ .mustNot ∧
    (opts.preventCrossCellPromotion = true → ∀ p, pp = some p →
      np.Alias.cell = p.Alias.cell) := by
  unfold checkIfConstraintsSatisfied at hc
  split at hc
  · cases hc
  · split at hc
    · cases hc
    · rename_i h1 h2
      constructor
      · simpa using h2
      · intro hprev p hpp
        subst hpp
        simp [hprev] at h1
        exact h1

/-- For every successful run of the locked orchestration, the final promoted
primary has a promotion rule different from MUST_NOT, and whenever
`prevent_cross_cell_promotion` is set and a previous primary is known, the
final primary's cell equals the previous primary's cell. -/
theorem reparentShardLocked_success_aux (env : OrchEnv)
    (opts : EmergencyReparentOptions) (t : Tablet)
    (h : (reparentShardLocked env opts).2 = .ok t) :
    PromotionRule t ≠ .mustNot ∧
    (opts.preventCrossCellPromotion = true →
      ∀ pp tm vc p, (ersPrepare env).2 = .ok (pp, tm, vc) → pp = some p →
        t.Alias.cell = p.Alias.cell) := by
  obtain ⟨pp, tm, vc, hprep, hc⟩ := reparentShardLocked_ok env opts t h
  obtain ⟨h1, h2⟩ := checkIfConstraintsSatisfied_none t pp opts hc
  refine ⟨h1, ?_⟩
  intro hprev pp2 tm2 vc2 p hprep2 hpp
  rw [hprep] at hprep2
  injection hprep2 with h3
  injection h3 with h4 h5
  injection h5 with h5 h6
  subst h4
  subst h5
  subst h6
  exact h2 hprev p hpp

/-- Claim C2: for every successful run of `ReparentShard`, the final promoted
primary has a promotion rule different from MUST_NOT (which implies the
claim's disjunction — the compensation disjunct is vacuous on success, since
the compensation path always returns the constraint error); and whenever
`prevent_cross_cell_promotion` is set and a previous primary is known, the
final primary's cell equals the previous primary's cell. -/
theorem ReparentShard_success_constraints (lockShardResult : Option Err) (env : OrchEnv)
    (opts : EmergencyReparentOptions) (t : Tablet)
    (h : (ReparentShard lockShardResult env opts).result = .ok t) :
    PromotionRule t ≠ .mustNot ∧
    (opts.preventCrossCellPromotion = true →
      ∀ pp tm vc p, (ersPrepare env).2 = .ok (pp, tm, vc) → pp = some p →
        t.Alias.cell = p.Alias.cell) := by
  have hlock : (reparentShardLocked env opts).2 = .ok t := by
    rcases lockShardResult with _ | e
    · unfold ReparentShard at h
      cases hr : (reparentShardLocked env opts).2 with
      | ok t2 =>
        rw [hr] at h
        dsimp only at h
        injection h with h
        rw [h]
      | error e2 =>
        rw [hr] at h
        dsimp only at h
        cases h
    · unfold ReparentShard at h
      dsimp only at h
      cases h
  exact reparentShardLocked_success_aux env opts t hlock

/-- First tablet of the C2 witness. -/
def tabC2a : Tablet := ⟨⟨"z1", 1⟩, .replica, .neutral⟩

/-- Second tablet of the C2 witness. -/
def tabC2b : Tablet := ⟨⟨"z1", 2⟩, .replica, .neutral⟩

/-- Tablet map of the C2 witness. -/
def tmC2 : List (String × Tablet) := [("z1-1", tabC2a), ("z1-2", tabC2b)]

/-- Valid candidates of the C2 witness. -/
def vcC2 : List (String × Position) := [("z1-1", [1]), ("z1-2", [1])]

/-- Options of the C2 witness. -/
def optsC2 : EmergencyReparentOptions := ⟨none, [], false⟩

/-- Environment of the C2 witness: every external call succeeds, leading to a
successful run promoting `tabC2a`. -/
def envC2 : OrchEnv :=
  { getShardResult := .ok ⟨none⟩
    getTabletResult := .error (.external "unused")
    getTabletMapResult := .ok tmC2
    stopStatusResult := .ok ()
    checkLock1Result := none
    findValidCandidatesResult := .ok vcC2
    waitRelayResult := none
    checkLock2Result := none
    intermediateReparentEnv := ⟨.ok [], none⟩
    intermediateReplicaErr := fun _ => none
    intermediateEarlyFirst := false
    waitForCatchUpResult := none
    promoteReplicaResult := fun _ => none
    finalReparentEnv := fun _ => ⟨.ok [], none⟩
    finalReplicaErr := fun _ _ => none
    finalEarlyFirst := fun _ => true }

/-- Witness for C2: a concrete successful run whose promoted primary carries a
non-MUST_NOT rule and satisfies the (here vacuous) cell constraint. -/
theorem ReparentShard_success_constraints_witness :
    (ReparentShard none envC2 optsC2).result = .ok tabC2a ∧
    (PromotionRule tabC2a ≠ .mustNot ∧
      (optsC2.preventCrossCellPromotion = true →
        ∀ pp tm vc p, (ersPrepare envC2).2 = .ok (pp, tm, vc) → pp = some p →
          tabC2a.Alias.cell = p.Alias.cell)) :=
  ⟨by decide, ReparentShard_success_constraints none envC2 optsC2 tabC2a (by decide)⟩

/-- The preparation trace is always a prefix of `prepSteps`. -/
theorem ersPrepare_trace (env : OrchEnv) : ∃ k, (ersPrepare env).1 = prepSteps.take k := by
  unfold ersPrepare
  repeat' split
  all_goals exact ⟨_, rfl⟩

/-- Sublist shape used for C7: the two ordered steps inside the non-ideal
branch ending at final selection. -/
theorem sublist_iR_fS5 (t : List Step) :
    [Step.intermediateReparent, Step.finalSelect].Sublist
      ([Step.intermediateSelect, Step.idealCheck, Step.checkLock2, Step.intermediateReparent,
        Step.finalSelect] ++ t) := by
  refine List.Sublist.trans ?_ (List.sublist_append_left _ t)
  exact .cons _ (.cons _ (.cons _ (.cons₂ _ (.cons₂ _ (List.nil_sublist [])))))

/-- Sublist shape used for C7: as above, with the final catch-up step. -/
theorem sublist_iR_fS6 (t : List Step) :
    [Step.intermediateReparent, Step.finalSelect].Sublist
      ([Step.intermediateSelect, Step.idealCheck, Step.checkLock2, Step.intermediateReparent,
        Step.finalSelect, Step.finalCatchUp] ++ t) := by
  refine List.Sublist.trans ?_ (List.sublist_append_left _ t)
  exact .cons _ (.cons _ (.cons _ (.cons₂ _ (.cons₂ _ (List.nil_sublist _)))))

/-- Within selection-and-promotion, any run whose trace reaches final
selection performed the intermediate reparent first. -/
theorem ersSelectAndPromote_finalSelect (env : OrchEnv) (opts : EmergencyReparentOptions)
    (pp : Option Tablet) (tm : List (String × Tablet)) (vc : List (String × Position)) :
    Step.finalSelect ∈ (ersSelectAndPromote env opts pp tm vc).1 →
    [Step.intermediateReparent, Step.finalSelect].Sublist
      (ersSelectAndPromote env opts pp tm vc).1 := by
  unfold ersSelectAndPromote
  repeat' split
  all_goals intro h
  all_goals dsimp only at h ⊢
  · simp at h
  · simp at h
  · simp at h
  · -- ideal intermediate: the finish trace holds no final selection
    exfalso
    rcases List.mem_append.mp h with h1 | h2
    · simp at h1
    · rcases ersFinish_trace env opts pp _ tm with hf | hf <;> rw [hf] at h2 <;> simp at h2
  · simp at h
  · exact sublist_iR_fS5 []
  · exact sublist_iR_fS5 _
  · exact sublist_iR_fS6 []
  · exact sublist_iR_fS6 _

/-- Claim C7: every run of the locked orchestration that reaches final
candidate selection has first executed the non-promoting intermediate
reparent: the trace contains the intermediate-reparent step before the
final-selection step. -/
theorem finalSelect_after_intermediateReparent (env : OrchEnv)
    (opts : EmergencyReparentOptions)
    (h : Step.finalSelect ∈ (reparentShardLocked env opts).1) :
    [Step.intermediateReparent, Step.finalSelect].Sublist
      (reparentShardLocked env opts).1 := by
  unfold reparentShardLocked at h ⊢
  cases hp : (ersPrepare env).2 with
  | error e =>
    rw [hp] at h
    dsimp only at h ⊢
    exfalso
    obtain ⟨k, hk⟩ := ersPrepare_trace env
    rw [hk] at h
    have hmem := List.take_subset k prepSteps h
    simp [prepSteps] at hmem
  | ok tup =>
    obtain ⟨pp, tm, vc⟩ := tup
    rw [hp] at h
    dsimp only at h ⊢
    have h2 : Step.finalSelect ∈ (ersSelectAndPromote env opts pp tm vc).1 := by
      rcases List.mem_append.mp h with h1 | h2
      · exfalso
        obtain ⟨k, hk⟩ := ersPrepare_trace env
        rw [hk] at h1
        have hmem := List.take_subset k prepSteps h1
        simp [prepSteps] at hmem
      · exact h2
    exact (ersSelectAndPromote_finalSelect env opts pp tm vc h2).trans
      (List.sublist_append_right _ _)

/-- First tablet of the C7 witness: most advanced, neutral rule. -/
def tabC7a : Tablet := ⟨⟨"z1", 1⟩, .replica, .neutral⟩

/-- Second tablet of the C7 witness: behind, but PREFER rule, so the
intermediate is not ideal and the run goes through the intermediate reparent
and final selection. -/
def tabC7b : Tablet := ⟨⟨"z1", 2⟩, .replica, .prefer⟩

/-- Tablet map of the C7 witness. -/
def tmC7 : List (String × Tablet) := [("z1-1", tabC7a), ("z1-2", tabC7b)]

/-- Valid candidates of the C7 witness. -/
def vcC7 : List (String × Position) := [("z1-1", [1, 2]), ("z1-2", [1])]

/-- Options of the C7 witness. -/
def optsC7 : EmergencyReparentOptions := ⟨none, [], false⟩

/-- Environment of the C7 witness: all external calls succeed. -/
def envC7 : OrchEnv :=
  { getShardResult := .ok ⟨none⟩
    getTabletResult := .error (.external "unused")
    getTabletMapResult := .ok tmC7
    stopStatusResult := .ok ()
    checkLock1Result := none
    findValidCandidatesResult := .ok vcC7
    waitRelayResult := none
    checkLock2Result := none
    intermediateReparentEnv := ⟨.ok [], none⟩
    intermediateReplicaErr := fun _ => none
    intermediateEarlyFirst := false
    waitForCatchUpResult := none
    promoteReplicaResult := fun _ => none
    finalReparentEnv := fun _ => ⟨.ok [], none⟩
    finalReplicaErr := fun _ _ => none
    finalEarlyFirst := fun _ => true }

/-- Witness for C7: a concrete run that reaches final selection, whose trace
lists the intermediate reparent before it. -/
theorem finalSelect_after_intermediateReparent_witness :
    Step.finalSelect ∈ (reparentShardLocked envC7 optsC7).1 ∧
    [Step.intermediateReparent, Step.finalSelect].Sublist
      (reparentShardLocked envC7 optsC7).1 :=
  ⟨by decide, finalSelect_after_intermediateReparent envC7 optsC7 (by decide)⟩

/-- Claim C8: when, after the errant-GTID filter and the eligibility
restriction, no valid candidate remains, the locked orchestration fails with
the FAILED_PRECONDITION "no valid candidates for emergency reparent" error and
performs no further step: neither the relay-log wait, nor selection, nor any
reparent or promotion appears in the trace. -/
theorem noValidCandidates_shortCircuit (env : OrchEnv) (opts : EmergencyReparentOptions)
    (si : ShardInfo) (pp : Option Tablet) (tm : List (String × Tablet))
    (vc0 : List (String × Position))
    (h1 : env.getShardResult = .ok si)
    (h2 : ersPrevPrimary env si = .ok pp)
    (h3 : env.getTabletMapResult = .ok tm)
    (h4 : env.stopStatusResult = .ok ())
    (h5 : env.checkLock1Result = none)
    (h6 : env.findValidCandidatesResult = .ok vc0)
    (h7 : restrictValidCandidates vc0 tm = .ok []) :
    (reparentShardLocked env opts).2 = .error .noValidCandidates ∧
    Err.noValidCandidates.code = .failedPrecondition ∧
    Step.waitRelayLogs ∉ (reparentShardLocked env opts).1 ∧
    Step.intermediateSelect ∉ (reparentShardLocked env opts).1 ∧
    Step.intermediateReparent ∉ (reparentShardLocked env opts).1 ∧
    Step.finalSelect ∉ (reparentShardLocked env opts).1 ∧
    Step.promote ∉ (reparentShardLocked env opts).1 := by
  have hprep : ersPrepare env = (prepSteps.take 7, .error .noValidCandidates) := by
    unfold ersPrepare
    rw [h1]; dsimp only
    rw [h2]; dsimp only
    rw [h3]; dsimp only
    rw [h4]; dsimp only
    rw [h5]; dsimp only
    rw [h6]; dsimp only
    rw [h7]; dsimp only
    rfl
  unfold reparentShardLocked
  rw [hprep]
  dsimp only
  refine ⟨rfl, rfl, ?_, ?_, ?_, ?_, ?_⟩ <;> decide

/-- The only tablet of the C8 witness is DRAINED, so the eligibility
restriction leaves no valid candidate. -/
def tabC8 : Tablet := ⟨⟨"z1", 1⟩, .drained, .neutral⟩

/-- Tablet map of the C8 witness. -/
def tmC8 : List (String × Tablet) := [("z1-1", tabC8)]

/-- Errant-GTID-filter output of the C8 witness. -/
def vcC8 : List (String × Position) := [("z1-1", [1])]

/-- Options of the C8 witness. -/
def optsC8 : EmergencyReparentOptions := ⟨none, [], false⟩

/-- Environment of the C8 witness. -/
def envC8 : OrchEnv :=
  { getShardResult := .ok ⟨none⟩
    getTabletResult := .error (.external "unused")
    getTabletMapResult := .ok tmC8
    stopStatusResult := .ok ()
    checkLock1Result := none
    findValidCandidatesResult := .ok vcC8
    waitRelayResult := none
    checkLock2Result := none
    intermediateReparentEnv := ⟨.ok [], none⟩
    intermediateReplicaErr := fun _ => none
    intermediateEarlyFirst := false
    waitForCatchUpResult := none
    promoteReplicaResult := fun _ => none
    finalReparentEnv := fun _ => ⟨.ok [], none⟩
    finalReplicaErr := fun _ _ => none
    finalEarlyFirst := fun _ => true }

/-- Witness for C8: the drained-only shard fails with the
no-valid-candidates error and the trace stops at the restriction step. -/
theorem noValidCandidates_shortCircuit_witness :
    envC8.getShardResult = .ok ⟨none⟩ ∧
    ersPrevPrimary envC8 ⟨none⟩ = .ok none ∧
    envC8.getTabletMapResult = .ok tmC8 ∧
    envC8.stopStatusResult = .ok () ∧
    envC8.checkLock1Result = none ∧
    envC8.findValidCandidatesResult = .ok vcC8 ∧
    restrictValidCandidates vcC8 tmC8 = .ok [] ∧
    ((reparentShardLocked envC8 optsC8).2 = .error .noValidCandidates ∧
    Err.noValidCandidates.code = .failedPrecondition ∧
    Step.waitRelayLogs ∉ (reparentShardLocked envC8 optsC8).1 ∧
    Step.intermediateSelect ∉ (reparentShardLocked envC8 optsC8).1 ∧
    Step.intermediateReparent ∉ (reparentShardLocked envC8 optsC8).1 ∧
    Step.finalSelect ∉ (reparentShardLocked envC8 optsC8).1 ∧
    Step.promote ∉ (reparentShardLocked envC8 optsC8).1) :=
  ⟨rfl, rfl, rfl, rfl, rfl, rfl, by decide,
    noValidCandidates_shortCircuit envC8 optsC8 ⟨none⟩ none tmC8 vcC8
      rfl rfl rfl rfl rfl rfl (by decide)⟩

end ERS
